import Mathlib

/-!
Verification development for the Integration Gateway of the
HCC-CompAdvisor repository (shallow embedding of
`src/python/utils/api_client.py`, `src/python/utils/db_connector.py`
and `src/python/auth.py`).

Python dict values that cross the gateway boundary are modelled by
`PyVal` (floats are carried opaquely as rationals; no floating-point
arithmetic is ever performed on them by this code, they are only passed
through).  A JSON document returned by `response.json()` is either a
dict or some other JSON value (`PyObj`); the distinction matters because
calling `.get` on a non-dict raises `AttributeError` in Python.

Network effects are modelled by an explicit oracle
`net : HttpCall → HttpOutcome` standing for `requests.request`: the
gateway builds an `HttpCall` from its own configuration, hands it to the
transport, and post-processes the outcome.  `HttpOutcome.exc` is a
raised `requests.exceptions.RequestException` (timeout, connection
refused, TLS error) carrying its message; a response body is
`Except String PyObj`, where `.error m` is a `JSONDecodeError` raised by
`response.json()` (in the `requests` versions this code runs against,
`JSONDecodeError` is a `RequestException` and is caught by the same
handler).
-/

inductive PyVal where
  | noneVal
  | bool (b : Bool)
  | int (n : Int)
  | float (q : Rat)
  | str (s : String)
deriving DecidableEq, Repr

abbrev PyDict := List (String × PyVal)

inductive PyObj where
  | dict (d : PyDict)
  | val (v : PyVal)
deriving DecidableEq, Repr

/-- Association-list lookup, the model of Python `dict.get`. -/
def lookupKey : PyDict → String → Option PyVal
  | [], _ => none
  | (k, v) :: rest, key => if k == key then some v else lookupKey rest key

/-- `obj.get(key)` when `obj` may not be a dict: `none` on a non-dict
models the `AttributeError` path collapsed to "no value". -/
def pyGet : PyObj → String → Option PyVal
  | .dict d, k => lookupKey d k
  | .val _, _ => none

/-- Keys of a Python dict in insertion order. -/
def dictKeys (d : PyDict) : List String := d.map Prod.fst

/-- Python `str.rstrip('/')`: drop every trailing slash. -/
def rstripSlash (s : String) : String :=
  String.mk ((s.data.reverse.dropWhile (fun c => c == '/')).reverse)

/-- Python `str.lstrip('/')`: drop every leading slash. -/
def lstripSlash (s : String) : String :=
  String.mk (s.data.dropWhile (fun c => c == '/'))

/-- Python truthiness of an `Optional[str]`: `None` and `""` are falsy. -/
def pyTruthyStrOpt : Option String → Bool
  | none => false
  | some s => !s.isEmpty

structure BasicAuth where
  username : String
  password : String
deriving DecidableEq, Repr

/-- The configuration fields of `config.py` consumed by `ORDSClient`. -/
structure OrdsConfig where
  ORDS_BASE_URL : String
  ORDS_USERNAME : String
  ORDS_PASSWORD : String
  API_TIMEOUT : Nat
deriving DecidableEq, Repr

/-- The argument record of one `requests.request(...)` invocation. -/
structure HttpCall where
  method : String
  url : String
  auth : BasicAuth
  params : Option PyDict
  json_data : Option PyDict
  timeout : Nat
  verify : Bool
deriving DecidableEq, Repr

/-- Result of `response.json()`: a parsed document, or a raised
`JSONDecodeError` carrying its message. -/
inductive BodyParse where
  | parsed (j : PyObj)
  | decodeErr (msg : String)
deriving DecidableEq, Repr

/-- Outcome of one transport round-trip: a raised `RequestException`
with its message, or a response with status code, reason phrase and
body. -/
inductive HttpOutcome where
  | exc (msg : String)
  | resp (status_code : Nat) (reason : String) (body : BodyParse)
deriving DecidableEq, Repr

/-- The message `requests` formats for `HTTPError` in `raise_for_status`. -/
def http_error_msg (status_code : Nat) (reason url : String) : String :=
  if status_code < 500 then
    toString status_code ++ " Client Error: " ++ reason ++ " for url: " ++ url
  else
    toString status_code ++ " Server Error: " ++ reason ++ " for url: " ++ url

/-- `Response.raise_for_status`: raises `HTTPError` exactly for
`400 <= status_code < 600`, returning the exception message. -/
def raise_for_status (status_code : Nat) (reason url : String) : Option String :=
  if 400 ≤ status_code ∧ status_code < 600 then
    some (http_error_msg status_code reason url)
  else
    none

/-- The state of an `ORDSClient` instance (`api_client.py`, lines 20-24). -/
structure ORDSClient where
  base_url : String
  auth : BasicAuth
  timeout : Nat
  verify_ssl : Bool
deriving DecidableEq, Repr

/-- `ORDSClient.__init__`: base URL right-stripped of slashes, basic
auth from config, fixed timeout from config, `verify_ssl` hardcoded to
`False` for self-signed certificates. -/
def ORDSClient.init (cfg : OrdsConfig) : ORDSClient :=
  { base_url := rstripSlash cfg.ORDS_BASE_URL
    auth := { username := cfg.ORDS_USERNAME, password := cfg.ORDS_PASSWORD }
    timeout := cfg.API_TIMEOUT
    verify_ssl := false }

/-- The single `requests.request(...)` call `_make_request` issues
(lines 45-56): URL joined from base and left-stripped endpoint, the
session's auth, timeout and TLS-verification flag. -/
def ORDSClient.request_call (c : ORDSClient) (method endpoint : String)
    (params : Option PyDict) (json_data : Option PyDict) : HttpCall :=
  { method := method
    url := c.base_url ++ "/" ++ lstripSlash endpoint
    auth := c.auth
    params := params
    json_data := json_data
    timeout := c.timeout
    verify := c.verify_ssl }

/-- The response-handling tail of `_make_request` (lines 58-68):
`raise_for_status`, the 204 normalization, `response.json()`, and the
`except RequestException` handler producing the error envelope. -/
def handle_outcome (url : String) : HttpOutcome → PyObj
  | .exc msg => .dict [("error", .str msg)]
  | .resp status_code reason body =>
    match raise_for_status status_code reason url with
    | some msg => .dict [("error", .str msg)]
    | none =>
      if status_code = 204 then .dict [("success", .bool true)]
      else
        match body with
        | .parsed j => j
        | .decodeErr msg => .dict [("error", .str msg)]

/-- `ORDSClient._make_request`: build the call from the session
configuration, run it through the transport, post-process the outcome. -/
def ORDSClient.make_request (c : ORDSClient) (net : HttpCall → HttpOutcome)
    (method endpoint : String) (params : Option PyDict)
    (json_data : Option PyDict) : PyObj :=
  handle_outcome (c.request_call method endpoint params json_data).url
    (net (c.request_call method endpoint params json_data))

/-- `ORDSClient.get`. -/
def ORDSClient.get (c : ORDSClient) (net : HttpCall → HttpOutcome)
    (endpoint : String) (params : Option PyDict) : PyObj :=
  c.make_request net "GET" endpoint params none

/-- `ORDSClient.post`. -/
def ORDSClient.post (c : ORDSClient) (net : HttpCall → HttpOutcome)
    (endpoint : String) (json_data : Option PyDict) : PyObj :=
  c.make_request net "POST" endpoint none json_data

/-- The query-parameter dict built by `get_recommendations`
(lines 107-112): always `min_savings_pct` and `limit`, plus `strategy`
only when the argument is truthy. -/
def recommendations_params (strategy : Option String)
    (min_savings_pct : Rat) (limit : Int) : PyDict :=
  let params : PyDict :=
    [("min_savings_pct", .float min_savings_pct), ("limit", .int limit)]
  match strategy with
  | some s => if !s.isEmpty then params ++ [("strategy", .str s)] else params
  | none => params

/-- `ORDSClient.get_recommendations`. -/
def ORDSClient.get_recommendations (c : ORDSClient)
    (net : HttpCall → HttpOutcome) (strategy : Option String)
    (min_savings_pct : Rat) (limit : Int) : PyObj :=
  c.get net "recommendations"
    (some (recommendations_params strategy min_savings_pct limit))

/-- `ORDSClient.health_check` (lines 180-186): `GET health`, then
`response.get("status") == "healthy"`; any exception (including the
`AttributeError` from `.get` on a non-dict body) yields `False`. -/
def ORDSClient.health_check (c : ORDSClient)
    (net : HttpCall → HttpOutcome) : Bool :=
  match c.get net "health" none with
  | .dict d => lookupKey d "status" == some (.str "healthy")
  | .val _ => false

/-!
Session Guard (`src/python/auth.py`).  Streamlit's session-state bag is
modelled as an explicit `SessionState` record (the four keys
`initialize_session_state` installs); `datetime.now()` is an explicit
`now : Int` parameter, timestamps counted in seconds, so
`timedelta(minutes=m)` is `m * 60`.
-/

/-- The configuration fields of `config.py` consumed by `AuthManager`. -/
structure AuthConfig where
  MAX_LOGIN_ATTEMPTS : Nat
  DASHBOARD_PASSWORD : String
  SESSION_TIMEOUT_MINUTES : Nat
deriving DecidableEq, Repr

/-- The session-state keys managed by `AuthManager`. -/
structure SessionState where
  authenticated : Bool
  login_attempts : Nat
  last_activity : Int
  username : Option String
deriving DecidableEq, Repr

/-- `AuthManager.initialize_session_state` run on a fresh session bag at
time `t0`: unauthenticated, zero attempts, activity stamped now. -/
def init_session_state (t0 : Int) : SessionState :=
  { authenticated := false
    login_attempts := 0
    last_activity := t0
    username := none }

/-- `AuthManager.logout` (lines 84-88). -/
def AuthManager.logout (now : Int) (st : SessionState) : SessionState :=
  { st with
    authenticated := false
    username := none
    last_activity := now }

/-- `AuthManager.check_session_timeout` (lines 37-44): returns whether
the session timed out, together with the resulting state (a forced
logout on timeout).  The `'last_activity' in session_state` guard is
always true on an initialized state. -/
def AuthManager.check_session_timeout (cfg : AuthConfig) (now : Int)
    (st : SessionState) : Bool × SessionState :=
  if now - st.last_activity > (cfg.SESSION_TIMEOUT_MINUTES : Int) * 60 then
    (true, AuthManager.logout now st)
  else
    (false, st)

/-- `AuthManager.update_activity` (lines 47-49). -/
def AuthManager.update_activity (now : Int) (st : SessionState) : SessionState :=
  { st with last_activity := now }

/-- `AuthManager.login` (lines 52-81): early rejection once the attempt
budget is exhausted, otherwise password comparison; success resets the
attempt counter and stamps activity, failure increments the counter. -/
def AuthManager.login (cfg : AuthConfig) (now : Int) (st : SessionState)
    (password : String) : Bool × SessionState :=
  if st.login_attempts ≥ cfg.MAX_LOGIN_ATTEMPTS then
    (false, st)
  else if password = cfg.DASHBOARD_PASSWORD then
    (true,
      { authenticated := true
        username := some "admin"
        login_attempts := 0
        last_activity := now })
  else
    (false, { st with login_attempts := st.login_attempts + 1 })

/-- `AuthManager.is_authenticated` (lines 91-93). -/
def AuthManager.is_authenticated (st : SessionState) : Bool :=
  st.authenticated

/-- `AuthManager.require_authentication` (lines 96-109): timeout check
first; on an unauthenticated state the page is halted by `st.stop()`
(second component `true`), otherwise the activity timestamp is
refreshed.  `initialize_session_state` is a no-op on an initialized
state. -/
def AuthManager.require_authentication (cfg : AuthConfig) (now : Int)
    (st : SessionState) : SessionState × Bool :=
  if AuthManager.is_authenticated (AuthManager.check_session_timeout cfg now st).2 then
    (AuthManager.update_activity now (AuthManager.check_session_timeout cfg now st).2, false)
  else
    ((AuthManager.check_session_timeout cfg now st).2, true)

/-- One Session Guard operation, tagged with the time at which it runs. -/
inductive AuthOp where
  | login (now : Int) (password : String)
  | logout (now : Int)
  | check_timeout (now : Int)
  | require_auth (now : Int)
deriving DecidableEq, Repr

/-- Effect of one Session Guard operation on the session state. -/
def applyAuthOp (cfg : AuthConfig) (st : SessionState) : AuthOp → SessionState
  | .login now password => (AuthManager.login cfg now st password).2
  | .logout now => AuthManager.logout now st
  | .check_timeout now => (AuthManager.check_session_timeout cfg now st).2
  | .require_auth now => (AuthManager.require_authentication cfg now st).1

/-- Running a sequence of Session Guard operations. -/
def runAuthOps (cfg : AuthConfig) (st : SessionState) : List AuthOp → SessionState
  | [] => st
  | op :: ops => runAuthOps cfg (applyAuthOp cfg st op) ops

/-!
Database Gateway (`src/python/utils/db_connector.py`).  The class-level
pool is modelled by `DBState`; a pool only needs its checked-out count
for the claims at hand.  Effects of the Oracle driver are an explicit
environment `DbEnv`: whether `create_pool` raises, whether
`pool.acquire` raises, and the outcome of the cursor work done inside
the `with` block (`PyResult`: normal value, raised `oracledb.Error`, or
some other raised exception).
-/

/-- Connection pool handle: the number of connections checked out. -/
structure PoolState where
  checkedOut : Nat
deriving DecidableEq, Repr

/-- Class-level state of `DatabaseConnector`: `_pool`. -/
structure DBState where
  pool : Option PoolState
deriving DecidableEq, Repr

/-- `pool.acquire()`. -/
def poolAcquire (p : PoolState) : PoolState := { checkedOut := p.checkedOut + 1 }

/-- `pool.release(connection)`. -/
def poolRelease (p : PoolState) : PoolState := { checkedOut := p.checkedOut - 1 }

/-- Result of running a piece of Python code: a value, a raised
`oracledb.Error`, or some other raised exception. -/
inductive PyResult (α : Type) where
  | ok (a : α)
  | oraErr (msg : String)
  | exc (msg : String)
deriving DecidableEq, Repr

/-- Driver-effect environment for one Database Gateway operation:
`createErr` = `oracledb.create_pool` raises, `acquireErr` =
`pool.acquire` raises, `body` = outcome of the cursor work performed
with the connection. -/
structure DbEnv (α : Type) where
  createErr : Option String
  acquireErr : Option String
  body : PyResult α
deriving DecidableEq, Repr

/-- `DatabaseConnector.initialize_pool` (lines 19-35): creates the pool
only when absent; a `create_pool` failure is reported and re-raised. -/
def init_pool (st : DBState) (createErr : Option String) :
    DBState × Option String :=
  match st.pool with
  | some _ => (st, none)
  | none =>
    match createErr with
    | some m => (st, some m)
    | none => ({ pool := some { checkedOut := 0 } }, none)

/-- `DatabaseConnector.get_connection` (lines 37-58) run around a body:
lazily initialize the pool, `connection = None`, acquire, yield to the
body, and in `finally` release whenever a connection was acquired.  An
`oracledb.Error` from the body is reported and re-raised (it passes
through unchanged); the `finally` release happens on every exit path. -/
def with_connection {α : Type} (st : DBState) (env : DbEnv α) :
    DBState × PyResult α :=
  match init_pool st env.createErr with
  | (_, some m) => (st, .oraErr m)
  | (st1, none) =>
    match st1.pool with
    | none => (st1, .oraErr "pool missing")
    | some p =>
      match env.acquireErr with
      | some m => (st1, .oraErr m)
      | none =>
        ({ pool := some (poolRelease (poolAcquire p)) }, env.body)

/-- Query results: rows fetched plus column names from the cursor
description. -/
structure QueryData where
  rows : List (List PyVal)
  columns : List String
deriving DecidableEq, Repr

/-- The pandas DataFrame built by `execute_query`. -/
structure DataFrame where
  rows : List (List PyVal)
  columns : List String
deriving DecidableEq, Repr

/-- `pd.DataFrame()`: the empty frame returned on query failure. -/
def empty_df : DataFrame := { rows := [], columns := [] }

/-- `DatabaseConnector.execute_query` (lines 61-95): the cursor work
runs inside `get_connection`; an `oracledb.Error` anywhere in the
`try` block is caught and converted to an empty DataFrame; any other
exception propagates (still after the pool release). -/
def execute_query (st : DBState) (env : DbEnv QueryData)
    (query : String) (params : Option PyDict) :
    DBState × PyResult DataFrame :=
  match with_connection st env with
  | (st1, .ok d) => (st1, .ok { rows := d.rows, columns := d.columns })
  | (st1, .oraErr _) => (st1, .ok empty_df)
  | (st1, .exc m) => (st1, .exc m)

/-- `DatabaseConnector.execute_dml` (lines 97-129): body yields the
`rowcount` (commit included in the body's effect); an `oracledb.Error`
is caught and converted to `0`. -/
def execute_dml (st : DBState) (env : DbEnv Int)
    (statement : String) (params : Option PyDict) (commit : Bool) :
    DBState × PyResult Int :=
  match with_connection st env with
  | (st1, .ok n) => (st1, .ok n)
  | (st1, .oraErr _) => (st1, .ok 0)
  | (st1, .exc m) => (st1, .exc m)

/-- `DatabaseConnector.execute_procedure` (lines 131-159): returns the
`callproc` result, or `None` after a caught `oracledb.Error`. -/
def execute_procedure (st : DBState) (env : DbEnv (List PyVal))
    (procedure_name : String) (params : Option (List PyVal)) :
    DBState × PyResult (Option (List PyVal)) :=
  match with_connection st env with
  | (st1, .ok r) => (st1, .ok (some r))
  | (st1, .oraErr _) => (st1, .ok none)
  | (st1, .exc m) => (st1, .exc m)

/-- `DatabaseConnector.test_connection` (lines 161-178): `True` when the
probe query runs, `False` after a caught `oracledb.Error`. -/
def test_connection (st : DBState) (env : DbEnv Unit) :
    DBState × PyResult Bool :=
  match with_connection st env with
  | (st1, .ok _) => (st1, .ok true)
  | (st1, .oraErr _) => (st1, .ok false)
  | (st1, .exc m) => (st1, .exc m)

/-- `DatabaseConnector.close_pool` (lines 211-216). -/
def close_pool (st : DBState) : DBState :=
  match st.pool with
  | some _ => { pool := none }
  | none => st

/-- Number of connections currently checked out of the pool. -/
def pool_checked_out (st : DBState) : Nat :=
  match st.pool with
  | some p => p.checkedOut
  | none => 0

/-!
Concrete instances used by witness theorems.
-/

/-- A concrete API configuration (the defaults of `config.py`). -/
def cfgEx : OrdsConfig :=
  { ORDS_BASE_URL := "https://localhost:8443/ords/hcc_advisor"
    ORDS_USERNAME := "hcc_advisor"
    ORDS_PASSWORD := "pw"
    API_TIMEOUT := 30 }

/-- The client built from `cfgEx`. -/
def clientEx : ORDSClient := ORDSClient.init cfgEx

/-- A concrete auth configuration (the defaults of `config.py`). -/
def authCfgEx : AuthConfig :=
  { MAX_LOGIN_ATTEMPTS := 3
    DASHBOARD_PASSWORD := "admin123"
    SESSION_TIMEOUT_MINUTES := 30 }

/-- `http_error_msg` never produces the empty string: both formats
contain the fixed text `" Client Error: "` / `" Server Error: "`. -/
theorem http_error_msg_ne_empty (s : Nat) (r u : String) :
    http_error_msg s r u ≠ "" := by
  intro h
  unfold http_error_msg at h
  have hc : (" Client Error: " : String).length = 15 := rfl
  have hs : (" Server Error: " : String).length = 15 := rfl
  have h0 : ("" : String).length = 0 := rfl
  split at h <;>
  · have hl := congrArg String.length h
    simp only [String.length_append, hc, hs, h0] at hl
    omega

/-- C1: every outbound call of the generic request primitive is issued
with the basic-auth credentials, the fixed timeout and the
TLS-verification flag of the constructed API session, with the URL
joined from base URL and endpoint, and `_make_request` consults the
transport only at exactly that call. -/
theorem make_request_uses_session_config (cfg : OrdsConfig)
    (net : HttpCall → HttpOutcome) (method endpoint : String)
    (params json_data : Option PyDict) :
    ((ORDSClient.init cfg).request_call method endpoint params json_data).auth
        = { username := cfg.ORDS_USERNAME, password := cfg.ORDS_PASSWORD }
    ∧ ((ORDSClient.init cfg).request_call method endpoint params json_data).timeout
        = cfg.API_TIMEOUT
    ∧ ((ORDSClient.init cfg).request_call method endpoint params json_data).verify
        = (ORDSClient.init cfg).verify_ssl
    ∧ ((ORDSClient.init cfg).request_call method endpoint params json_data).url
        = (ORDSClient.init cfg).base_url ++ "/" ++ lstripSlash endpoint
    ∧ (ORDSClient.init cfg).make_request net method endpoint params json_data
        = handle_outcome
            ((ORDSClient.init cfg).request_call method endpoint params json_data).url
            (net ((ORDSClient.init cfg).request_call method endpoint params json_data)) :=
  ⟨rfl, rfl, rfl, rfl, rfl⟩

/-- C7: a 204 No Content response is normalized to exactly
`{success: true}`. -/
theorem status_204_normalized (c : ORDSClient) (net : HttpCall → HttpOutcome)
    (method endpoint : String) (params json_data : Option PyDict)
    (reason : String) (body : BodyParse)
    (h : net (c.request_call method endpoint params json_data)
          = .resp 204 reason body) :
    c.make_request net method endpoint params json_data
      = .dict [("success", .bool true)] := by
  unfold ORDSClient.make_request
  rw [h]
  rfl

/-- Witness for `status_204_normalized` at a concrete client and
transport. -/
theorem status_204_normalized_witness :
    clientEx.make_request (fun _ => .resp 204 "No Content" (.decodeErr "Expecting value"))
      "POST" "analysis/start" none none = .dict [("success", .bool true)] :=
  status_204_normalized clientEx
    (fun _ => .resp 204 "No Content" (.decodeErr "Expecting value"))
    "POST" "analysis/start" none none "No Content" (.decodeErr "Expecting value") rfl

/-- C10: the transmitted query parameters of `get_recommendations`
contain the `strategy` key exactly when the argument is truthy; for
`None` and for the empty string only `min_savings_pct` and `limit` are
sent, and the request transmits exactly the built parameter dict. -/
theorem get_recommendations_strategy_key (c : ORDSClient)
    (net : HttpCall → HttpOutcome) (strategy : Option String)
    (min_savings_pct : Rat) (limit : Int) :
    dictKeys (recommendations_params strategy min_savings_pct limit)
        = ["min_savings_pct", "limit"]
          ++ (if pyTruthyStrOpt strategy then ["strategy"] else [])
    ∧ recommendations_params none min_savings_pct limit
        = [("min_savings_pct", .float min_savings_pct), ("limit", .int limit)]
    ∧ recommendations_params (some "") min_savings_pct limit
        = [("min_savings_pct", .float min_savings_pct), ("limit", .int limit)]
    ∧ c.get_recommendations net strategy min_savings_pct limit
        = c.get net "recommendations"
            (some (recommendations_params strategy min_savings_pct limit)) := by
  refine ⟨?_, rfl, rfl, rfl⟩
  cases strategy with
  | none => rfl
  | some s =>
    by_cases h : s.isEmpty <;>
      simp [recommendations_params, pyTruthyStrOpt, dictKeys, h]

/-- A transport exception produces the single-key error envelope. -/
theorem handle_outcome_exc (url msg : String) :
    handle_outcome url (.exc msg) = .dict [("error", .str msg)] := rfl

/-- A 4xx/5xx response produces the error envelope carrying the
`HTTPError` message. -/
theorem handle_outcome_4xx5xx (url reason : String) (status_code : Nat)
    (body : BodyParse) (h4 : 400 ≤ status_code) (h6 : status_code < 600) :
    handle_outcome url (.resp status_code reason body)
      = .dict [("error", .str (http_error_msg status_code reason url))] := by
  simp only [handle_outcome, raise_for_status]
  rw [if_pos ⟨h4, h6⟩]

/-- A 204 response is normalized to the success envelope. -/
theorem handle_outcome_204 (url reason : String) (body : BodyParse) :
    handle_outcome url (.resp 204 reason body)
      = .dict [("success", .bool true)] := rfl

/-- Outside 4xx/5xx and 204, the parsed body (or its decode failure)
is the result. -/
theorem handle_outcome_other (url reason : String) (status_code : Nat)
    (body : BodyParse) (h46 : ¬(400 ≤ status_code ∧ status_code < 600))
    (h204 : status_code ≠ 204) :
    handle_outcome url (.resp status_code reason body)
      = (match body with
         | .parsed j => j
         | .decodeErr msg => .dict [("error", .str msg)]) := by
  simp only [handle_outcome, raise_for_status]
  rw [if_neg h46, if_neg h204]

/-- `health_check` unfolded to the handled outcome of the `GET health`
call. -/
theorem health_check_def (c : ORDSClient) (net : HttpCall → HttpOutcome) :
    c.health_check net
      = (match handle_outcome (c.request_call "GET" "health" none none).url
             (net (c.request_call "GET" "health" none none)) with
         | .dict d => lookupKey d "status" == some (.str "healthy")
         | .val _ => false) := rfl

/-- Counterexample to "every non-2xx HTTP status yields an error
envelope": `raise_for_status` only raises for 4xx/5xx, so a 300
response whose body parses as JSON is returned as the parsed body,
which carries no `error` key at all. -/
theorem make_request_non2xx_counterexample :
    clientEx.make_request
        (fun _ => .resp 300 "Multiple Choices" (.parsed (.dict [("choices", .int 3)])))
        "GET" "recommendations" none none
      = .dict [("choices", .int 3)]
    ∧ pyGet
        (clientEx.make_request
          (fun _ => .resp 300 "Multiple Choices" (.parsed (.dict [("choices", .int 3)])))
          "GET" "recommendations" none none)
        "error" = none :=
  ⟨rfl, rfl⟩

/-- C3 (amended): a transport-level failure with its (non-empty)
exception message yields exactly the single-key envelope
`{error: message}`; every 4xx or 5xx status yields a single-key
envelope with a non-empty error string; and `health_check` returns
`false` under every failure — transport exception, 4xx/5xx status,
JSON-decode failure, non-dict body, or a dict without a healthy
status field. -/
theorem gateway_error_envelopes (c : ORDSClient) (net : HttpCall → HttpOutcome)
    (method endpoint : String) (params json_data : Option PyDict)
    (msg reason pm : String) (status_code : Nat) (body : BodyParse)
    (v : PyVal) (d : PyDict) :
    (net (c.request_call method endpoint params json_data) = .exc msg → msg ≠ "" →
      c.make_request net method endpoint params json_data
        = .dict [("error", .str msg)])
  ∧ (net (c.request_call method endpoint params json_data)
        = .resp status_code reason body →
      400 ≤ status_code → status_code < 600 →
      ∃ em, c.make_request net method endpoint params json_data
              = .dict [("error", .str em)] ∧ em ≠ "")
  ∧ (net (c.request_call "GET" "health" none none) = .exc msg →
      c.health_check net = false)
  ∧ (net (c.request_call "GET" "health" none none)
        = .resp status_code reason (.decodeErr pm) →
      c.health_check net = false)
  ∧ (net (c.request_call "GET" "health" none none)
        = .resp status_code reason (.parsed (.val v)) →
      c.health_check net = false)
  ∧ (net (c.request_call "GET" "health" none none)
        = .resp status_code reason (.parsed (.dict d)) →
      lookupKey d "status" ≠ some (.str "healthy") →
      c.health_check net = false) := by
  refine ⟨?_, ?_, ?_, ?_, ?_, ?_⟩
  · intro h _
    unfold ORDSClient.make_request
    rw [h]
    rfl
  · intro h h4 h6
    unfold ORDSClient.make_request
    rw [h]
    exact ⟨http_error_msg status_code reason
        (c.request_call method endpoint params json_data).url,
      handle_outcome_4xx5xx _ _ _ _ h4 h6,
      http_error_msg_ne_empty _ _ _⟩
  · intro h
    rw [health_check_def, h]
    rfl
  · intro h
    rw [health_check_def, h]
    by_cases h46 : 400 ≤ status_code ∧ status_code < 600
    · rw [handle_outcome_4xx5xx _ _ _ _ h46.1 h46.2]
      rfl
    · by_cases h204 : status_code = 204
      · rw [h204, handle_outcome_204]
        rfl
      · rw [handle_outcome_other _ _ _ _ h46 h204]
        rfl
  · intro h
    rw [health_check_def, h]
    by_cases h46 : 400 ≤ status_code ∧ status_code < 600
    · rw [handle_outcome_4xx5xx _ _ _ _ h46.1 h46.2]
      rfl
    · by_cases h204 : status_code = 204
      · rw [h204, handle_outcome_204]
        rfl
      · rw [handle_outcome_other _ _ _ _ h46 h204]
  · intro h hne
    rw [health_check_def, h]
    by_cases h46 : 400 ≤ status_code ∧ status_code < 600
    · rw [handle_outcome_4xx5xx _ _ _ _ h46.1 h46.2]
      rfl
    · by_cases h204 : status_code = 204
      · rw [h204, handle_outcome_204]
        rfl
      · rw [handle_outcome_other _ _ _ _ h46 h204]
        exact beq_eq_false_iff_ne.mpr hne

/-- Witness for `gateway_error_envelopes` at a concrete client and
transport: a timeout becomes the error envelope, and `health_check`
under the same condition is `false`. -/
theorem gateway_error_envelopes_witness :
    clientEx.make_request (fun _ => .exc "connection timed out")
        "GET" "analysis/latest" none none
      = .dict [("error", .str "connection timed out")]
    ∧ clientEx.health_check (fun _ => .exc "connection timed out") = false :=
  ⟨(gateway_error_envelopes clientEx (fun _ => .exc "connection timed out")
      "GET" "analysis/latest" none none "connection timed out" "" ""
      0 (.decodeErr "") PyVal.noneVal []).1 rfl (by decide),
   (gateway_error_envelopes clientEx (fun _ => .exc "connection timed out")
      "GET" "health" none none "connection timed out" "" ""
      0 (.decodeErr "") PyVal.noneVal []).2.2.1 rfl⟩

/-- C4: a wrong password with budget remaining is rejected and
increments the attempt counter by exactly one; once the budget is
exhausted every login call is rejected with the state unchanged,
independently of the password. -/
theorem login_attempt_budget (cfg : AuthConfig) (now : Int)
    (st : SessionState) (p : String) :
    (p ≠ cfg.DASHBOARD_PASSWORD → st.login_attempts < cfg.MAX_LOGIN_ATTEMPTS →
      AuthManager.login cfg now st p
        = (false, { st with login_attempts := st.login_attempts + 1 }))
    ∧ (cfg.MAX_LOGIN_ATTEMPTS ≤ st.login_attempts →
      AuthManager.login cfg now st p = (false, st)) := by
  constructor
  · intro hp hlt
    unfold AuthManager.login
    rw [if_neg (not_le.mpr hlt), if_neg hp]
  · intro hge
    unfold AuthManager.login
    rw [if_pos hge]

/-- Witness for `login_attempt_budget`: a wrong password at one prior
failure, and a correct password after lockout. -/
theorem login_attempt_budget_witness :
    AuthManager.login authCfgEx 50 ⟨false, 1, 0, none⟩ "wrong"
      = (false, ⟨false, 2, 0, none⟩)
    ∧ AuthManager.login authCfgEx 50 ⟨false, 3, 0, none⟩ "admin123"
      = (false, ⟨false, 3, 0, none⟩) :=
  ⟨(login_attempt_budget authCfgEx 50 ⟨false, 1, 0, none⟩ "wrong").1
      (by decide) (by decide),
   (login_attempt_budget authCfgEx 50 ⟨false, 3, 0, none⟩ "admin123").2
      (by decide)⟩

/-- One Session Guard operation never pushes the attempt counter past
the configured maximum. -/
theorem applyAuthOp_attempts_le (cfg : AuthConfig) (st : SessionState)
    (op : AuthOp) (h : st.login_attempts ≤ cfg.MAX_LOGIN_ATTEMPTS) :
    (applyAuthOp cfg st op).login_attempts ≤ cfg.MAX_LOGIN_ATTEMPTS := by
  cases op with
  | login now p =>
    simp only [applyAuthOp]
    unfold AuthManager.login
    by_cases hge : cfg.MAX_LOGIN_ATTEMPTS ≤ st.login_attempts
    · rw [if_pos hge]
      exact h
    · rw [if_neg hge]
      by_cases hp : p = cfg.DASHBOARD_PASSWORD
      · rw [if_pos hp]
        exact Nat.zero_le _
      · rw [if_neg hp]
        simp only
        omega
  | logout now => exact h
  | check_timeout now =>
    simp only [applyAuthOp]
    unfold AuthManager.check_session_timeout
    split <;> exact h
  | require_auth now =>
    simp only [applyAuthOp]
    unfold AuthManager.require_authentication AuthManager.check_session_timeout
    split <;> split <;> exact h

/-- Attempt counter stays within budget along any operation sequence. -/
theorem runAuthOps_attempts_le (cfg : AuthConfig) (ops : List AuthOp) :
    ∀ st : SessionState, st.login_attempts ≤ cfg.MAX_LOGIN_ATTEMPTS →
      (runAuthOps cfg st ops).login_attempts ≤ cfg.MAX_LOGIN_ATTEMPTS := by
  induction ops with
  | nil => intro st h; exact h
  | cons op ops ih =>
    intro st h
    exact ih _ (applyAuthOp_attempts_le cfg st op h)

/-- C5: from the initial session state, `failed_attempts` never exceeds
the configured maximum across any sequence of Session Guard
operations, and a successful login with budget remaining
authenticates and resets the counter to zero. -/
theorem session_guard_invariant (cfg : AuthConfig) (t0 : Int)
    (ops : List AuthOp) :
    (runAuthOps cfg (init_session_state t0) ops).login_attempts
        ≤ cfg.MAX_LOGIN_ATTEMPTS
    ∧ (∀ (now : Int) (st : SessionState),
        st.login_attempts < cfg.MAX_LOGIN_ATTEMPTS →
        AuthManager.login cfg now st cfg.DASHBOARD_PASSWORD
          = (true,
              { authenticated := true
                login_attempts := 0
                last_activity := now
                username := some "admin" })) := by
  constructor
  · exact runAuthOps_attempts_le cfg ops _ (Nat.zero_le _)
  · intro now st hlt
    unfold AuthManager.login
    rw [if_neg (not_le.mpr hlt), if_pos rfl]

/-- Witness for `session_guard_invariant`: a concrete operation
sequence stays within budget, and a concrete in-budget login with the
configured secret succeeds and resets the counter. -/
theorem session_guard_invariant_witness :
    (runAuthOps authCfgEx (init_session_state 0)
        [.login 5 "bad", .login 6 "nope", .check_timeout 7,
         .login 8 "worse", .login 9 "bad"]).login_attempts
      ≤ authCfgEx.MAX_LOGIN_ATTEMPTS
    ∧ AuthManager.login authCfgEx 9 ⟨false, 2, 0, none⟩ "admin123"
      = (true, ⟨true, 0, 9, some "admin"⟩) :=
  ⟨(session_guard_invariant authCfgEx 0
      [.login 5 "bad", .login 6 "nope", .check_timeout 7,
       .login 8 "worse", .login 9 "bad"]).1,
   (session_guard_invariant authCfgEx 0 []).2 9 ⟨false, 2, 0, none⟩
      (by decide)⟩

/-- A state whose activity stamp is the current instant never times
out (the timeout window is nonnegative). -/
theorem check_timeout_fresh (cfg : AuthConfig) (now : Int)
    (st : SessionState) (h : st.last_activity = now) :
    (AuthManager.check_session_timeout cfg now st).1 = false := by
  have hng : ¬(now - st.last_activity
      > (cfg.SESSION_TIMEOUT_MINUTES : Int) * 60) := by
    rw [h]
    omega
  unfold AuthManager.check_session_timeout
  rw [if_neg hng]

/-- C8: `check_timeout` returns true iff the elapsed time since
`last_activity` exceeds the idle-timeout window, and a true result has
forced a logout; immediately after a successful `login` or a
non-halting `require_authentication` (both stamp fresh activity) it
returns false. -/
theorem check_timeout_spec (cfg : AuthConfig) (now : Int)
    (st : SessionState) (p : String) :
    ((AuthManager.check_session_timeout cfg now st).1 = true ↔
      now - st.last_activity > (cfg.SESSION_TIMEOUT_MINUTES : Int) * 60)
    ∧ ((AuthManager.check_session_timeout cfg now st).1 = true →
        (AuthManager.check_session_timeout cfg now st).2
          = AuthManager.logout now st)
    ∧ ((AuthManager.login cfg now st p).1 = true →
        (AuthManager.check_session_timeout cfg now
          (AuthManager.login cfg now st p).2).1 = false)
    ∧ ((AuthManager.require_authentication cfg now st).2 = false →
        (AuthManager.check_session_timeout cfg now
          (AuthManager.require_authentication cfg now st).1).1 = false) := by
  refine ⟨?_, ?_, ?_, ?_⟩
  · unfold AuthManager.check_session_timeout
    split
    case isTrue hcond => simp [hcond]
    case isFalse hcond => simp [hcond]
  · unfold AuthManager.check_session_timeout
    split
    · intro _
      rfl
    · intro hh
      simp at hh
  · intro h
    unfold AuthManager.login at h ⊢
    by_cases hge : st.login_attempts ≥ cfg.MAX_LOGIN_ATTEMPTS
    · rw [if_pos hge] at h
      simp at h
    · rw [if_neg hge] at h ⊢
      by_cases hp : p = cfg.DASHBOARD_PASSWORD
      · rw [if_pos hp]
        exact check_timeout_fresh cfg now _ rfl
      · rw [if_neg hp] at h
        simp at h
  · intro h
    unfold AuthManager.require_authentication at h ⊢
    by_cases hb : AuthManager.is_authenticated
        (AuthManager.check_session_timeout cfg now st).2 = true
    · rw [if_pos hb]
      exact check_timeout_fresh cfg now _ rfl
    · rw [if_neg hb] at h
      simp at h

/-- Witness for `check_timeout_spec`: a stale session is logged out by
the timeout check, and the check is false right after a successful
login and right after a non-halting `require_authentication`. -/
theorem check_timeout_spec_witness :
    (AuthManager.check_session_timeout authCfgEx 10000
        ⟨true, 0, 0, some "admin"⟩).2
      = AuthManager.logout 10000 ⟨true, 0, 0, some "admin"⟩
    ∧ (AuthManager.check_session_timeout authCfgEx 5
        (AuthManager.login authCfgEx 5 ⟨false, 0, 0, none⟩ "admin123").2).1
      = false
    ∧ (AuthManager.check_session_timeout authCfgEx 7
        (AuthManager.require_authentication authCfgEx 7
          ⟨true, 0, 6, some "admin"⟩).1).1
      = false :=
  ⟨(check_timeout_spec authCfgEx 10000 ⟨true, 0, 0, some "admin"⟩ "x").2.1
      (by decide),
   (check_timeout_spec authCfgEx 5 ⟨false, 0, 0, none⟩ "admin123").2.2.1
      (by decide),
   (check_timeout_spec authCfgEx 7 ⟨true, 0, 6, some "admin"⟩ "x").2.2.2
      (by decide)⟩

/-- `with_connection` leaves the checked-out count unchanged on every
exit path: either nothing was acquired, or the `finally` release
balances the acquire. -/
theorem with_connection_balanced {α : Type} (st : DBState) (env : DbEnv α) :
    pool_checked_out (with_connection st env).1 = pool_checked_out st := by
  obtain ⟨pool⟩ := st
  obtain ⟨createErr, acquireErr, body⟩ := env
  cases pool <;> cases createErr <;> cases acquireErr <;>
    simp [with_connection, init_pool, pool_checked_out, poolRelease, poolAcquire]

/-- `execute_query` only post-processes the `with_connection` result;
the state is untouched. -/
theorem execute_query_state (st : DBState) (env : DbEnv QueryData)
    (query : String) (params : Option PyDict) :
    (execute_query st env query params).1 = (with_connection st env).1 := by
  rcases hw : with_connection st env with ⟨s1, r⟩
  unfold execute_query
  rw [hw]
  cases r <;> rfl

/-- `execute_dml` only post-processes the `with_connection` result. -/
theorem execute_dml_state (st : DBState) (env : DbEnv Int)
    (statement : String) (params : Option PyDict) (commit : Bool) :
    (execute_dml st env statement params commit).1
      = (with_connection st env).1 := by
  rcases hw : with_connection st env with ⟨s1, r⟩
  unfold execute_dml
  rw [hw]
  cases r <;> rfl

/-- `execute_procedure` only post-processes the `with_connection`
result. -/
theorem execute_procedure_state (st : DBState) (env : DbEnv (List PyVal))
    (procedure_name : String) (params : Option (List PyVal)) :
    (execute_procedure st env procedure_name params).1
      = (with_connection st env).1 := by
  rcases hw : with_connection st env with ⟨s1, r⟩
  unfold execute_procedure
  rw [hw]
  cases r <;> rfl

/-- `test_connection` only post-processes the `with_connection`
result. -/
theorem test_connection_state (st : DBState) (env : DbEnv Unit) :
    (test_connection st env).1 = (with_connection st env).1 := by
  rcases hw : with_connection st env with ⟨s1, r⟩
  unfold test_connection
  rw [hw]
  cases r <;> rfl

/-- C2: all four Database Gateway operations leave the pool's
checked-out count unchanged under every driver outcome — normal
return, `oracledb.Error`, or any other exception; every acquired
connection is released. -/
theorem connections_always_released (st : DBState)
    (envQ : DbEnv QueryData) (envD : DbEnv Int)
    (envP : DbEnv (List PyVal)) (envT : DbEnv Unit)
    (query statement procedure_name : String) (params : Option PyDict)
    (pparams : Option (List PyVal)) (commit : Bool) :
    pool_checked_out (execute_query st envQ query params).1
        = pool_checked_out st
    ∧ pool_checked_out (execute_dml st envD statement params commit).1
        = pool_checked_out st
    ∧ pool_checked_out (execute_procedure st envP procedure_name pparams).1
        = pool_checked_out st
    ∧ pool_checked_out (test_connection st envT).1 = pool_checked_out st := by
  refine ⟨?_, ?_, ?_, ?_⟩
  · rw [execute_query_state]
    exact with_connection_balanced st envQ
  · rw [execute_dml_state]
    exact with_connection_balanced st envD
  · rw [execute_procedure_state]
    exact with_connection_balanced st envP
  · rw [test_connection_state]
    exact with_connection_balanced st envT

/-- When the cursor work raises `oracledb.Error`, `with_connection`
surfaces an `oracledb.Error` whatever the pool state and acquire
outcome. -/
theorem with_connection_oraErr {α : Type} (st : DBState)
    (pc aq : Option String) (m : String) :
    ∃ m2, (with_connection st (⟨pc, aq, .oraErr m⟩ : DbEnv α)).2
      = .oraErr m2 := by
  obtain ⟨pool⟩ := st
  cases pool <;> cases pc <;> cases aq <;> exact ⟨_, rfl⟩

/-- C6: a failing statement makes `execute_query` return the empty
DataFrame (no rows) without raising past the gateway boundary, and
makes `execute_dml` return 0. -/
theorem failing_statement_defaults (st : DBState)
    (query statement : String) (params : Option PyDict) (commit : Bool)
    (pc aq : Option String) (m : String) :
    (execute_query st ⟨pc, aq, .oraErr m⟩ query params).2 = .ok empty_df
    ∧ empty_df.rows = []
    ∧ (execute_dml st ⟨pc, aq, .oraErr m⟩ statement params commit).2
        = .ok 0 := by
  refine ⟨?_, rfl, ?_⟩
  · obtain ⟨m2, hm⟩ := with_connection_oraErr (α := QueryData) st pc aq m
    rcases hw : with_connection st (⟨pc, aq, .oraErr m⟩ : DbEnv QueryData)
      with ⟨s1, r⟩
    rw [hw] at hm
    simp only at hm
    unfold execute_query
    rw [hw, hm]
  · obtain ⟨m2, hm⟩ := with_connection_oraErr (α := Int) st pc aq m
    rcases hw : with_connection st (⟨pc, aq, .oraErr m⟩ : DbEnv Int)
      with ⟨s1, r⟩
    rw [hw] at hm
    simp only at hm
    unfold execute_dml
    rw [hw, hm]

/-- C9: after `close_pool` the pool is gone, and any subsequent
operation lazily re-creates a fresh pool instead of failing: the query
runs and its result is returned, and the final state holds the new
pool. -/
theorem close_then_use_reinitializes (st : DBState) (d : QueryData)
    (query : String) (params : Option PyDict) :
    (close_pool st).pool = none
    ∧ (execute_query (close_pool st) ⟨none, none, .ok d⟩ query params).1
        = { pool := some { checkedOut := 0 } }
    ∧ (execute_query (close_pool st) ⟨none, none, .ok d⟩ query params).2
        = .ok { rows := d.rows, columns := d.columns }
    ∧ (test_connection (close_pool st) ⟨none, none, .ok ()⟩).2 = .ok true := by
  obtain ⟨pool⟩ := st
  cases pool <;> exact ⟨rfl, rfl, rfl, rfl⟩
